import Mathlib

/-!
Shallow embedding of the `JSON::Dataset` value object of Serial-Studio
(src/unnamed/part_000: default constructor, accessors, and
`JSON::Dataset::read`), together with theorems settling the claims about
its JSON decoding contract.

JSON numbers are modelled as rationals (the code only extracts and stores
them, it performs no floating-point arithmetic on them).  A missing key is
modelled as `Option.none`, mirroring `QJsonValue::Undefined`.
-/

namespace JSON

/-- A JSON value as held by `QJsonValue` (null, bool, number, string,
array or object). -/
inductive JsonValue where
  | null
  | boolean (b : Bool)
  | number (q : ℚ)
  | str (s : String)
  | arr (elems : List JsonValue)
  | obj (members : List (String × JsonValue))

/-- A JSON object (`QJsonObject`): a finite mapping from string keys to
JSON values, embedded as an association list with first-match lookup. -/
abbrev JsonObject := List (String × JsonValue)

/-- `QJsonObject::isEmpty`: the object has no members. -/
def JsonObject.isEmpty (object : JsonObject) : Bool :=
  List.isEmpty object

/-- `QJsonObject::value(key)`: the value stored under `key`, or
`QJsonValue::Undefined` (here `none`) when the key is absent. -/
def JsonObject.value (object : JsonObject) (key : String) : Option JsonValue :=
  match object with
  | [] => none
  | (k, v) :: rest => if k = key then some v else JsonObject.value rest key

/-- Modelled from the spec: coercion of an extracted (possibly missing)
JSON value to a boolean — "boolean fields coerce JSON bool (falsy/missing
→ false)" (`QJsonValue::toBool`, supplied by the standard library). -/
def toBool : Option JsonValue → Bool
  | some (.boolean b) => b
  | _ => false

/-- Modelled from the spec: coercion of an extracted (possibly missing)
JSON value to a double — "numeric fields coerce to double/int with 0 as
the default for non-numeric/missing input" (`QJsonValue::toDouble`). -/
def toDouble : Option JsonValue → ℚ
  | some (.number q) => q
  | _ => 0

/-- Modelled from the spec: coercion of an extracted (possibly missing)
JSON value to a string — "string fields coerce to string with empty
string as default" (`QJsonValue::toString`). -/
def toString : Option JsonValue → String
  | some (.str s) => s
  | _ => ""

/-- Modelled from the spec: coercion of an extracted (possibly missing)
JSON value to an integer — "numeric fields coerce to double/int with 0 as
the default for non-numeric/missing input"; a non-integral number also
yields the default (`QJsonValue::toInt`). -/
def toInt : Option JsonValue → Int
  | some (.number q) => if q.den = 1 then q.num else 0
  | _ => 0

/-- Modelled from the spec: the single-key form of the `JFI_Value` lookup
helper (declared in `FrameInfo.h`, which is not under src/): plain lookup
of the primary key. -/
def JFI_Value (object : JsonObject) (key : String) : Option JsonValue :=
  JsonObject.value object key

/-- Modelled from the spec: the key-with-fallback form of the `JFI_Value`
lookup helper (declared in `FrameInfo.h`, which is not under src/):
"lookup tries the primary key first, falls back to the alias if the
primary is absent, and yields a type-appropriate zero value if neither is
present". -/
def JFI_Value2 (object : JsonObject) (key altKey : String) : Option JsonValue :=
  match JsonObject.value object key with
  | some v => some v
  | none => JsonObject.value object altKey

/-- The fields of `JSON::Dataset` (Dataset.h / src/unnamed/part_000). -/
structure Dataset where
  m_fft : Bool
  m_led : Bool
  m_log : Bool
  m_graph : Bool
  m_title : String
  m_value : String
  m_units : String
  m_widget : String
  m_index : Int
  m_max : ℚ
  m_min : ℚ
  m_alarm : ℚ
  m_fftSamples : Int
  m_jsonData : JsonObject

/-- The default constructor `JSON::Dataset::Dataset()` (lines 27-42):
flags false, strings empty, `m_index` 0, `m_max`/`m_min`/`m_alarm` 0 and
`m_fftSamples` 1024; `m_jsonData` is a default-constructed (empty)
`QJsonObject`. -/
def Dataset.init : Dataset :=
  { m_fft := false
    m_led := false
    m_log := false
    m_graph := false
    m_title := ""
    m_value := ""
    m_units := ""
    m_widget := ""
    m_index := 0
    m_max := 0
    m_min := 0
    m_alarm := 0
    m_fftSamples := 1024
    m_jsonData := [] }

/-- Accessor `JSON::Dataset::fft`. -/
def Dataset.fft (d : Dataset) : Bool := d.m_fft

/-- Accessor `JSON::Dataset::led`. -/
def Dataset.led (d : Dataset) : Bool := d.m_led

/-- Accessor `JSON::Dataset::log`. -/
def Dataset.log (d : Dataset) : Bool := d.m_log

/-- Accessor `JSON::Dataset::graph`. -/
def Dataset.graph (d : Dataset) : Bool := d.m_graph

/-- Accessor `JSON::Dataset::min`. -/
def Dataset.min (d : Dataset) : ℚ := d.m_min

/-- Accessor `JSON::Dataset::max`. -/
def Dataset.max (d : Dataset) : ℚ := d.m_max

/-- Accessor `JSON::Dataset::alarm`. -/
def Dataset.alarm (d : Dataset) : ℚ := d.m_alarm

/-- Accessor `JSON::Dataset::title`. -/
def Dataset.title (d : Dataset) : String := d.m_title

/-- Accessor `JSON::Dataset::value`. -/
def Dataset.value (d : Dataset) : String := d.m_value

/-- Accessor `JSON::Dataset::units`. -/
def Dataset.units (d : Dataset) : String := d.m_units

/-- Accessor `JSON::Dataset::widget`. -/
def Dataset.widget (d : Dataset) : String := d.m_widget

/-- Accessor `JSON::Dataset::fftSamples` (lines 135-138):
`qMax(1, m_fftSamples)`. -/
def Dataset.fftSamples (d : Dataset) : Int := Max.max 1 d.m_fftSamples

/-- Accessor `JSON::Dataset::jsonData`. -/
def Dataset.jsonData (d : Dataset) : JsonObject := d.m_jsonData

/-- `JSON::Dataset::read` (lines 154-192).  The C++ member function
mutates `*this` and returns a `bool`; it is embedded as a function from
the pre-state and the input object to the returned boolean paired with
the post-state. -/
def Dataset.read (d : Dataset) (object : JsonObject) : Bool × Dataset :=
  if !JsonObject.isEmpty object then
    let fft := toBool (JFI_Value object "fft")
    let led := toBool (JFI_Value object "led")
    let log := toBool (JFI_Value object "log")
    let min := toDouble (JFI_Value object "min")
    let max := toDouble (JFI_Value object "max")
    let alarm := toDouble (JFI_Value object "alarm")
    let graph := toBool (JFI_Value2 object "graph" "g")
    let title := toString (JFI_Value2 object "title" "t")
    let value := toString (JFI_Value2 object "value" "v")
    let units := toString (JFI_Value2 object "units" "u")
    let widget := toString (JFI_Value2 object "widget" "w")
    let fftSamples := toInt (JFI_Value object "fftSamples")
    if !value.isEmpty && !title.isEmpty then
      (true,
        { d with
            m_min := min
            m_max := max
            m_fft := fft
            m_led := led
            m_log := log
            m_graph := graph
            m_title := title
            m_units := units
            m_value := value
            m_alarm := alarm
            m_widget := widget
            m_jsonData := object
            m_fftSamples := fftSamples })
    else
      (false, d)
  else
    (false, d)

/-- The title string extracted from an input object by `read`. -/
def extTitle (object : JsonObject) : String :=
  toString (JFI_Value2 object "title" "t")

/-- The value string extracted from an input object by `read`. -/
def extValue (object : JsonObject) : String :=
  toString (JFI_Value2 object "value" "v")

end JSON

namespace JSON

lemma isEmpty_false_of_ne {s : String} (h : s ≠ "") : s.isEmpty = false := by
  cases hb : s.isEmpty with
  | false => rfl
  | true => exact absurd ((String.isEmpty_iff s).mp hb) h

lemma object_ne_nil_of_extTitle {object : JsonObject} (ht : extTitle object ≠ "") :
    JsonObject.isEmpty object = false := by
  cases object with
  | nil => exact absurd rfl ht
  | cons p rest => rfl

/-- Success equation for `read`: when the extracted title and value are
non-empty, `read` returns `true` and replaces every schema field with its
coerced extracted value (keeping only `m_index` from the pre-state). -/
lemma read_success_eq (d : Dataset) (object : JsonObject)
    (ht : extTitle object ≠ "") (hv : extValue object ≠ "") :
    Dataset.read d object =
      (true,
        { m_fft := toBool (JFI_Value object "fft")
          m_led := toBool (JFI_Value object "led")
          m_log := toBool (JFI_Value object "log")
          m_graph := toBool (JFI_Value2 object "graph" "g")
          m_title := extTitle object
          m_value := extValue object
          m_units := toString (JFI_Value2 object "units" "u")
          m_widget := toString (JFI_Value2 object "widget" "w")
          m_index := d.m_index
          m_max := toDouble (JFI_Value object "max")
          m_min := toDouble (JFI_Value object "min")
          m_alarm := toDouble (JFI_Value object "alarm")
          m_fftSamples := toInt (JFI_Value object "fftSamples")
          m_jsonData := object }) := by
  have hobj := object_ne_nil_of_extTitle ht
  have ht' := isEmpty_false_of_ne ht
  have hv' := isEmpty_false_of_ne hv
  simp only [Dataset.read, extTitle, extValue] at *
  rw [hobj, ht', hv']
  simp only [Bool.not_false, Bool.and_self, if_true]

end JSON

namespace JSON

/-- Failure equation for `read`: when the object is empty or an extracted
title/value string is empty, `read` returns `false` and the pre-state. -/
lemma read_failure_eq (d : Dataset) (object : JsonObject)
    (h : JsonObject.isEmpty object = true ∨ (extValue object).isEmpty = true ∨
      (extTitle object).isEmpty = true) :
    Dataset.read d object = (false, d) := by
  simp only [Dataset.read, extValue, extTitle] at *
  rcases h with h | h | h
  · simp [h]
  · cases hobj : JsonObject.isEmpty object with
    | true => simp [hobj]
    | false => simp [hobj, h]
  · cases hobj : JsonObject.isEmpty object with
    | true => simp [hobj]
    | false => simp [hobj, h]

end JSON

namespace JSON

/-- Case split for `read`: every call either fails leaving the pre-state,
or returns `true`. -/
lemma read_cases (d : Dataset) (object : JsonObject) :
    Dataset.read d object = (false, d) ∨ (Dataset.read d object).1 = true := by
  simp only [Dataset.read]
  split
  · split
    · right; rfl
    · left; rfl
  · left; rfl

/-- A sample valid input object using the primary keys. -/
def demoSpeed : JsonObject :=
  [("title", JsonValue.str "Speed"), ("value", JsonValue.str "10")]

/-- C1: for every input object whose extracted title and value strings are
non-empty, `read` returns `true`, assigns every §6 schema field to the
coerced extracted value (the type default when both the key and its alias
are absent), and stores the input object verbatim in `m_jsonData`. -/
theorem read_valid_assigns_all_fields (d : Dataset) (object : JsonObject)
    (ht : extTitle object ≠ "") (hv : extValue object ≠ "") :
    (Dataset.read d object).1 = true ∧
    (Dataset.read d object).2.m_fft = toBool (JFI_Value object "fft") ∧
    (Dataset.read d object).2.m_led = toBool (JFI_Value object "led") ∧
    (Dataset.read d object).2.m_log = toBool (JFI_Value object "log") ∧
    (Dataset.read d object).2.m_graph = toBool (JFI_Value2 object "graph" "g") ∧
    (Dataset.read d object).2.m_title = extTitle object ∧
    (Dataset.read d object).2.m_value = extValue object ∧
    (Dataset.read d object).2.m_units = toString (JFI_Value2 object "units" "u") ∧
    (Dataset.read d object).2.m_widget = toString (JFI_Value2 object "widget" "w") ∧
    (Dataset.read d object).2.m_min = toDouble (JFI_Value object "min") ∧
    (Dataset.read d object).2.m_max = toDouble (JFI_Value object "max") ∧
    (Dataset.read d object).2.m_alarm = toDouble (JFI_Value object "alarm") ∧
    (Dataset.read d object).2.m_fftSamples = toInt (JFI_Value object "fftSamples") ∧
    (Dataset.read d object).2.m_jsonData = object := by
  rw [read_success_eq d object ht hv]
  exact ⟨rfl, rfl, rfl, rfl, rfl, rfl, rfl, rfl, rfl, rfl, rfl, rfl, rfl, rfl⟩

/-- Witness for C1 at the concrete object `demoSpeed`. -/
theorem read_valid_assigns_all_fields_witness :
    (Dataset.read Dataset.init demoSpeed).1 = true ∧
    (Dataset.read Dataset.init demoSpeed).2.m_fft = toBool (JFI_Value demoSpeed "fft") ∧
    (Dataset.read Dataset.init demoSpeed).2.m_led = toBool (JFI_Value demoSpeed "led") ∧
    (Dataset.read Dataset.init demoSpeed).2.m_log = toBool (JFI_Value demoSpeed "log") ∧
    (Dataset.read Dataset.init demoSpeed).2.m_graph = toBool (JFI_Value2 demoSpeed "graph" "g") ∧
    (Dataset.read Dataset.init demoSpeed).2.m_title = extTitle demoSpeed ∧
    (Dataset.read Dataset.init demoSpeed).2.m_value = extValue demoSpeed ∧
    (Dataset.read Dataset.init demoSpeed).2.m_units = toString (JFI_Value2 demoSpeed "units" "u") ∧
    (Dataset.read Dataset.init demoSpeed).2.m_widget = toString (JFI_Value2 demoSpeed "widget" "w") ∧
    (Dataset.read Dataset.init demoSpeed).2.m_min = toDouble (JFI_Value demoSpeed "min") ∧
    (Dataset.read Dataset.init demoSpeed).2.m_max = toDouble (JFI_Value demoSpeed "max") ∧
    (Dataset.read Dataset.init demoSpeed).2.m_alarm = toDouble (JFI_Value demoSpeed "alarm") ∧
    (Dataset.read Dataset.init demoSpeed).2.m_fftSamples = toInt (JFI_Value demoSpeed "fftSamples") ∧
    (Dataset.read Dataset.init demoSpeed).2.m_jsonData = demoSpeed :=
  read_valid_assigns_all_fields Dataset.init demoSpeed (by decide) (by decide)

/-- C2: `read` returns `false` exactly when the input object is empty or
the extracted title or value string is empty; the embedding is a total
function, so no other input makes it fail and no exception is involved. -/
theorem read_false_iff (d : Dataset) (object : JsonObject) :
    (Dataset.read d object).1 = false ↔
      (JsonObject.isEmpty object = true ∨ extTitle object = "" ∨ extValue object = "") := by
  constructor
  · intro h
    by_contra hc
    push_neg at hc
    obtain ⟨h1, h2, h3⟩ := hc
    rw [(read_valid_assigns_all_fields d object h2 h3).1] at h
    exact Bool.noConfusion h
  · intro h
    have hfail : Dataset.read d object = (false, d) := by
      apply read_failure_eq
      rcases h with h | h | h
      · exact Or.inl h
      · exact Or.inr (Or.inr ((String.isEmpty_iff _).mpr h))
      · exact Or.inr (Or.inl ((String.isEmpty_iff _).mpr h))
    rw [hfail]

/-- C3: when `read` returns `false` the entire pre-state — every field,
including values left by a previously successful decode — is preserved. -/
theorem read_failure_preserves_state (d : Dataset) (object : JsonObject)
    (h : (Dataset.read d object).1 = false) :
    (Dataset.read d object).2 = d := by
  rcases read_cases d object with hc | hc
  · rw [hc]
  · rw [hc] at h
    exact absurd h (by simp)

/-- Witness for C3: decoding an empty object after a successful decode of
`demoSpeed` fails and leaves the post-success state untouched. -/
theorem read_failure_preserves_state_witness :
    (Dataset.read (Dataset.read Dataset.init demoSpeed).2 []).1 = false ∧
    (Dataset.read (Dataset.read Dataset.init demoSpeed).2 []).2 =
      (Dataset.read Dataset.init demoSpeed).2 :=
  ⟨rfl, read_failure_preserves_state (Dataset.read Dataset.init demoSpeed).2 [] rfl⟩

end JSON

namespace JSON

/-- A valid object carrying `fftSamples: 0`. -/
def demoFFT0 : JsonObject :=
  [("title", JsonValue.str "x"), ("value", JsonValue.str "1"),
   ("fftSamples", JsonValue.number 0)]

/-- A valid object carrying `fftSamples: 2048`. -/
def demoFFT2048 : JsonObject :=
  [("title", JsonValue.str "x"), ("value", JsonValue.str "1"),
   ("fftSamples", JsonValue.number 2048)]

/-- C4: the `fftSamples` accessor returns `max 1 stored`, hence never less
than 1; after decoding `fftSamples: 0` or an object without the key it
returns 1, and after decoding `fftSamples: 2048` it returns 2048. -/
theorem fftSamples_floored :
    (∀ d : Dataset,
      Dataset.fftSamples d = Max.max 1 d.m_fftSamples ∧ 1 ≤ Dataset.fftSamples d) ∧
    Dataset.fftSamples (Dataset.read Dataset.init demoFFT0).2 = 1 ∧
    Dataset.fftSamples (Dataset.read Dataset.init demoSpeed).2 = 1 ∧
    Dataset.fftSamples (Dataset.read Dataset.init demoFFT2048).2 = 2048 := by
  refine ⟨fun d => ⟨rfl, le_max_left 1 d.m_fftSamples⟩, ?_, ?_, ?_⟩
  · decide
  · decide
  · decide

/-- The pure-alias object of the spec's fallback example. -/
def demoAlias : JsonObject :=
  [("t", JsonValue.str "Speed"), ("v", JsonValue.str "10"),
   ("g", JsonValue.boolean true)]

/-- C5: `JFI_Value2` tries the primary key first and falls back to the
alias only when the primary is absent; decoding the alias-only object
`{"t": "Speed", "v": "10", "g": true}` succeeds with `graph() == true`,
`title() == "Speed"` and `value() == "10"`. -/
theorem alias_fallback_lookup :
    (∀ (object : JsonObject) (key altKey : String),
      JFI_Value2 object key altKey =
        if (JsonObject.value object key).isSome then JsonObject.value object key
        else JsonObject.value object altKey) ∧
    (Dataset.read Dataset.init demoAlias).1 = true ∧
    Dataset.graph (Dataset.read Dataset.init demoAlias).2 = true ∧
    Dataset.title (Dataset.read Dataset.init demoAlias).2 = "Speed" ∧
    Dataset.value (Dataset.read Dataset.init demoAlias).2 = "10" := by
  refine ⟨fun object key altKey => ?_, by decide, by decide, by decide, by decide⟩
  unfold JFI_Value2
  cases JsonObject.value object key with
  | none => simp
  | some v => simp

/-- Counterexample to C6 as stated: a freshly constructed Dataset stores
1024 in `m_fftSamples`, not 0. -/
theorem init_fftSamples_ne_zero : Dataset.init.m_fftSamples ≠ 0 := by decide

/-- C6 (amended): a freshly constructed Dataset has the four boolean
flags false, the four strings empty, `m_min`, `m_max` and `m_alarm` 0 and
the stored `m_fftSamples` value 1024. -/
theorem init_defaults :
    Dataset.init.m_fft = false ∧ Dataset.init.m_led = false ∧
    Dataset.init.m_log = false ∧ Dataset.init.m_graph = false ∧
    Dataset.init.m_title = "" ∧ Dataset.init.m_value = "" ∧
    Dataset.init.m_units = "" ∧ Dataset.init.m_widget = "" ∧
    Dataset.init.m_min = 0 ∧ Dataset.init.m_max = 0 ∧
    Dataset.init.m_alarm = 0 ∧ Dataset.init.m_fftSamples = 1024 :=
  ⟨rfl, rfl, rfl, rfl, rfl, rfl, rfl, rfl, rfl, rfl, rfl, rfl⟩

end JSON

namespace JSON

/-- C7: decoding the same valid object twice in succession returns `true`
both times and the second call leaves every field exactly as the first
call set it. -/
theorem read_idempotent (d : Dataset) (object : JsonObject)
    (ht : extTitle object ≠ "") (hv : extValue object ≠ "") :
    (Dataset.read d object).1 = true ∧
    Dataset.read (Dataset.read d object).2 object = Dataset.read d object := by
  have h1 := read_success_eq d object ht hv
  have h2 := read_success_eq (Dataset.read d object).2 object ht hv
  refine ⟨by rw [h1], ?_⟩
  rw [h2, h1]

/-- Witness for C7 at the concrete object `demoSpeed`. -/
theorem read_idempotent_witness :
    (Dataset.read Dataset.init demoSpeed).1 = true ∧
    Dataset.read (Dataset.read Dataset.init demoSpeed).2 demoSpeed =
      Dataset.read Dataset.init demoSpeed :=
  read_idempotent Dataset.init demoSpeed (by decide) (by decide)

/-- C8: `read` is a deterministic pure function of the pre-state and the
input object, and every accessor is a pure function of the current field
state: equal inputs give equal outputs. -/
theorem read_deterministic (d₁ d₂ : Dataset) (o₁ o₂ : JsonObject)
    (hd : d₁ = d₂) (ho : o₁ = o₂) :
    Dataset.read d₁ o₁ = Dataset.read d₂ o₂ ∧
    Dataset.fft d₁ = Dataset.fft d₂ ∧ Dataset.led d₁ = Dataset.led d₂ ∧
    Dataset.log d₁ = Dataset.log d₂ ∧ Dataset.graph d₁ = Dataset.graph d₂ ∧
    Dataset.title d₁ = Dataset.title d₂ ∧ Dataset.value d₁ = Dataset.value d₂ ∧
    Dataset.units d₁ = Dataset.units d₂ ∧ Dataset.widget d₁ = Dataset.widget d₂ ∧
    Dataset.min d₁ = Dataset.min d₂ ∧ Dataset.max d₁ = Dataset.max d₂ ∧
    Dataset.alarm d₁ = Dataset.alarm d₂ ∧
    Dataset.fftSamples d₁ = Dataset.fftSamples d₂ ∧
    Dataset.jsonData d₁ = Dataset.jsonData d₂ := by
  subst hd
  subst ho
  exact ⟨rfl, rfl, rfl, rfl, rfl, rfl, rfl, rfl, rfl, rfl, rfl, rfl, rfl, rfl⟩

/-- Witness for C8 at the concrete state `Dataset.init` and object
`demoSpeed`. -/
theorem read_deterministic_witness :
    Dataset.read Dataset.init demoSpeed = Dataset.read Dataset.init demoSpeed ∧
    Dataset.fft Dataset.init = Dataset.fft Dataset.init ∧
    Dataset.led Dataset.init = Dataset.led Dataset.init ∧
    Dataset.log Dataset.init = Dataset.log Dataset.init ∧
    Dataset.graph Dataset.init = Dataset.graph Dataset.init ∧
    Dataset.title Dataset.init = Dataset.title Dataset.init ∧
    Dataset.value Dataset.init = Dataset.value Dataset.init ∧
    Dataset.units Dataset.init = Dataset.units Dataset.init ∧
    Dataset.widget Dataset.init = Dataset.widget Dataset.init ∧
    Dataset.min Dataset.init = Dataset.min Dataset.init ∧
    Dataset.max Dataset.init = Dataset.max Dataset.init ∧
    Dataset.alarm Dataset.init = Dataset.alarm Dataset.init ∧
    Dataset.fftSamples Dataset.init = Dataset.fftSamples Dataset.init ∧
    Dataset.jsonData Dataset.init = Dataset.jsonData Dataset.init :=
  read_deterministic Dataset.init Dataset.init demoSpeed demoSpeed rfl rfl

/-- C9: `m_index` starts at 0 and is never assigned by `read`: the index
after any call equals the index before it, on success and on failure. -/
theorem read_preserves_index :
    Dataset.init.m_index = 0 ∧
    ∀ (d : Dataset) (object : JsonObject),
      (Dataset.read d object).2.m_index = d.m_index := by
  refine ⟨rfl, fun d object => ?_⟩
  simp only [Dataset.read]
  split
  · split
    · rfl
    · rfl
  · rfl

/-- An object whose title and value are a single space character. -/
def demoWhitespace : JsonObject :=
  [("title", JsonValue.str " "), ("value", JsonValue.str " ")]

/-- C10: the validation gate tests plain emptiness with no trimming: any
extracted title and value with at least one character — even only
whitespace — make `read` return `true`. -/
theorem read_no_trim (d : Dataset) (object : JsonObject)
    (ht : 0 < (extTitle object).length) (hv : 0 < (extValue object).length) :
    (Dataset.read d object).1 = true := by
  have ht' : extTitle object ≠ "" := by
    intro h
    rw [h] at ht
    exact Nat.lt_irrefl 0 ht
  have hv' : extValue object ≠ "" := by
    intro h
    rw [h] at hv
    exact Nat.lt_irrefl 0 hv
  rw [read_success_eq d object ht' hv']

/-- Witness for C10 at the whitespace-only object `demoWhitespace`. -/
theorem read_no_trim_witness :
    0 < (extTitle demoWhitespace).length ∧ 0 < (extValue demoWhitespace).length ∧
    (Dataset.read Dataset.init demoWhitespace).1 = true :=
  ⟨by decide, by decide, read_no_trim Dataset.init demoWhitespace (by decide) (by decide)⟩

end JSON
